import Mathlib

/-!
Verification development for the dustbox-rs real-mode x86 emulator.

The Rust sources are shallowly embedded: machine integers become `Nat`
with explicit `% 2^w` at the places where the source performs a
truncating cast (`as u8`, `as u16`) or where fixed-width wrap-around
matters; byte memory (`Vec<u8>`) becomes a total function `Nat → Nat`
whose reads are taken modulo 256 to reflect the `u8` element type;
fallible code (Rust panics on slice indexing or integer underflow in
debug builds) returns `Option`.

Sections:
* `OldCpu`   — `src/cpu.rs` (the self-contained CPU with its own
               decoder/executor, memory, registers and flags).
* machine    — `src/memory.rs`, `src/memory/mmu.rs`, `src/machine.rs`.
* `Op`       — `src/cpu/op.rs` (the full instruction-kind enumeration).
* tracer     — `src/disassembler/src/tracer.rs`.
* GPU        — `src/gpu/render.rs` (frame composition).
-/

namespace OldCpu

/-- Flags register of `src/cpu.rs` (struct `Flags`): one boolean per bit
position as in the source. -/
structure Flags where
  carry : Bool
  reserved1 : Bool
  parity : Bool
  reserved3 : Bool
  adjust : Bool
  reserved5 : Bool
  zero : Bool
  sign : Bool
  trap : Bool
  interrupt_enable : Bool
  direction : Bool
  overflow : Bool
  iopl12 : Bool
  iopl13 : Bool
  nested_task : Bool
  reserved15 : Bool
  resume : Bool
  virtual_mode : Bool
  alignment_check : Bool
  virtual_interrupt : Bool
  virtual_interrupt_pending : Bool
  cpuid : Bool
deriving DecidableEq

/-- CPU state of `src/cpu.rs` (struct `CPU`): instruction pointer,
instruction counter, flat byte memory (`Vec<u8>` embedded as a total
byte function), eight general 16-bit registers and six segment
registers (embedded as index functions), and the flags. -/
structure CPU where
  ip : Nat
  instruction_count : Nat
  memory : Nat → Nat
  r16 : Nat → Nat
  sreg16 : Nat → Nat
  flags : Flags

/-- `const AX: usize = 0` of `src/cpu.rs`. -/
def AX : Nat := 0
/-- `const CX: usize = 1` of `src/cpu.rs`. -/
def CX : Nat := 1
/-- `const DX: usize = 2` of `src/cpu.rs`. -/
def DX : Nat := 2
/-- `const BX: usize = 3` of `src/cpu.rs`. -/
def BX : Nat := 3
/-- `const SP: usize = 4` of `src/cpu.rs`. -/
def SP : Nat := 4
/-- `const BP: usize = 5` of `src/cpu.rs`. -/
def BP : Nat := 5
/-- `const SI: usize = 6` of `src/cpu.rs`. -/
def SI : Nat := 6
/-- `const DI: usize = 7` of `src/cpu.rs`. -/
def DI : Nat := 7
/-- `const ES: usize = 0` of `src/cpu.rs`. -/
def ES : Nat := 0
/-- `pub const CS: usize = 1` of `src/cpu.rs`. -/
def CS : Nat := 1
/-- `const SS: usize = 2` of `src/cpu.rs`. -/
def SS : Nat := 2
/-- `const DS: usize = 3` of `src/cpu.rs`. -/
def DS : Nat := 3
/-- `const FS: usize = 4` of `src/cpu.rs`. -/
def FS : Nat := 4
/-- `const GS: usize = 5` of `src/cpu.rs`. -/
def GS : Nat := 5

/-- Instruction kind enum `Op` of `src/cpu.rs`. -/
inductive Op where
  | Add16
  | CallNear
  | Dec8
  | Inc16
  | Int
  | Loop
  | Mov8
  | Mov16
  | Pop16
  | Push16
  | Stosb
  | Xor16
  | Unknown
deriving DecidableEq

/-- Operand enum `Parameter` of `src/cpu.rs`. -/
inductive Parameter where
  | Imm8 (v : Nat)
  | Imm16 (v : Nat)
  | Reg8 (r : Nat)
  | Reg16 (r : Nat)
  | SReg16 (r : Nat)
  | Empty
deriving DecidableEq

/-- Decoded-instruction record `Parameters` of `src/cpu.rs`. -/
structure Parameters where
  command : Op
  src : Parameter
  dst : Parameter
deriving DecidableEq

/-- ModR/M byte split `ModRegRm` of `src/cpu.rs`. -/
structure ModRegRm where
  md : Nat
  reg : Nat
  rm : Nat

/-- Pointwise update of an index function (embeds an array store). -/
def updF (f : Nat → Nat) (i v : Nat) : Nat → Nat :=
  fun j => if j = i then v else f j

/-- `CPU::get_offset` of `src/cpu.rs`: the flat address the opcode fetch
uses. The source computes `self.sreg16[CS].val as usize + self.ip as
usize` — it does NOT shift the segment left by 4. Embedded exactly as
written. -/
def CPU.get_offset (c : CPU) : Nat :=
  c.sreg16 CS + c.ip

/-- `CPU::read_u8`: fetch the byte at `get_offset` and advance IP by one
(16-bit wrap). -/
def read_u8 (c : CPU) : Nat × CPU :=
  (c.memory c.get_offset % 256, { c with ip := (c.ip + 1) % 65536 })

/-- `CPU::read_u16`: two `read_u8` fetches, little-endian. -/
def read_u16 (c : CPU) : Nat × CPU :=
  let (lo, c1) := read_u8 c
  let (hi, c2) := read_u8 c1
  (hi * 256 + lo, c2)

/-- `CPU::read_rel8`: read an i8 displacement and add it (sign-extended)
to the post-read IP, as a u16. -/
def read_rel8 (c : CPU) : Nat × CPU :=
  let (v, c1) := read_u8 c
  (((c1.ip + (if 128 ≤ v then v + 0xFF00 else v)) % 65536), c1)

/-- `CPU::read_rel16`: read an i16 displacement and add it to the
post-read IP, as a u16. -/
def read_rel16 (c : CPU) : Nat × CPU :=
  let (v, c1) := read_u16 c
  (((c1.ip + v) % 65536), c1)

/-- `CPU::peek_u8_at`: read a byte at a flat position without touching
IP. -/
def peek_u8_at (c : CPU) (pos : Nat) : Nat :=
  c.memory pos % 256

/-- `CPU::peek_u16_at`: little-endian 16-bit read at a flat position. -/
def peek_u16_at (c : CPU) (pos : Nat) : Nat :=
  peek_u8_at c (pos + 1) * 256 + peek_u8_at c pos

/-- `CPU::write_u8`: store a byte at a flat position. -/
def write_u8 (c : CPU) (offset data : Nat) : CPU :=
  { c with memory := updF c.memory offset (data % 256) }

/-- `CPU::write_u16`: store low byte then high byte. -/
def write_u16 (c : CPU) (offset data : Nat) : CPU :=
  write_u8 (write_u8 c offset (data % 256)) (offset + 1) (data / 256 % 256)

/-- `CPU::read_mod_reg_rm`: split the next byte into mod/reg/rm. -/
def read_mod_reg_rm (c : CPU) : ModRegRm × CPU :=
  let (b, c1) := read_u8 c
  ({ md := b >>> 6, reg := (b >>> 3) &&& 7, rm := b &&& 7 }, c1)

/-- `CPU::rm8` of `src/cpu.rs`: decode an 8-bit r/m operand. The md=0/1/2
memory forms are embedded exactly as the (admittedly incomplete) source
computes them, including the `pos = 0` placeholder paths. -/
def rm8 (c : CPU) (rm md : Nat) : Parameter × CPU :=
  if md = 0 then
    if rm = 6 then
      let (pos, c1) := read_u16 c
      (Parameter.Imm16 (peek_u16_at c1 pos), c1)
    else
      (Parameter.Imm16 (peek_u16_at c 0), c)
  else if md = 1 then
    let (d, c1) := read_u8 c
    let pos := (0 + (if 128 ≤ d then d + 0xFF00 else d)) % 65536
    (Parameter.Imm16 (peek_u16_at c1 pos), c1)
  else if md = 2 then
    let (d, c1) := read_u16 c
    let pos := (0 + d) % 65536
    (Parameter.Imm16 (peek_u16_at c1 pos), c1)
  else
    (Parameter.Reg8 rm, c)

/-- `CPU::rm16` of `src/cpu.rs`: decode a 16-bit r/m operand. -/
def rm16 (c : CPU) (rm md : Nat) : Parameter × CPU :=
  if md = 0 then
    if rm = 6 then
      let (pos, c1) := read_u16 c
      (Parameter.Imm16 (peek_u16_at c1 pos), c1)
    else
      (Parameter.Imm16 (peek_u16_at c 0), c)
  else if md = 1 then
    let (d, c1) := read_u8 c
    let pos := (0 + (if 128 ≤ d then d + 0xFF00 else d)) % 65536
    (Parameter.Imm16 (peek_u16_at c1 pos), c1)
  else if md = 2 then
    let (d, c1) := read_u16 c
    let pos := (0 + d) % 65536
    (Parameter.Imm16 (peek_u16_at c1 pos), c1)
  else
    (Parameter.Reg16 rm, c)

/-- `CPU::rm8_r8`: decode r/m8, r8. -/
def rm8_r8 (c : CPU) : Parameters × CPU :=
  let (x, c1) := read_mod_reg_rm c
  let (dstP, c2) := rm8 c1 x.rm x.md
  ({ command := Op.Unknown, src := Parameter.Reg8 x.reg, dst := dstP }, c2)

/-- `CPU::r8_rm8`: decode r8, r/m8 (swap of `rm8_r8`). -/
def r8_rm8 (c : CPU) : Parameters × CPU :=
  let (res, c1) := rm8_r8 c
  ({ res with src := res.dst, dst := res.src }, c1)

/-- `CPU::rm16_sreg`: decode r/m16, Sreg. -/
def rm16_sreg (c : CPU) : Parameters × CPU :=
  let (x, c1) := read_mod_reg_rm c
  let (dstP, c2) := rm16 c1 x.rm x.md
  ({ command := Op.Unknown, src := Parameter.SReg16 x.reg, dst := dstP }, c2)

/-- `CPU::sreg_rm16`: decode Sreg, r/m16 (swap of `rm16_sreg`). -/
def sreg_rm16 (c : CPU) : Parameters × CPU :=
  let (res, c1) := rm16_sreg c
  ({ res with src := res.dst, dst := res.src }, c1)

/-- `CPU::rm16_r16`: decode r/m16, r16. -/
def rm16_r16 (c : CPU) : Parameters × CPU :=
  let (x, c1) := read_mod_reg_rm c
  let (dstP, c2) := rm16 c1 x.rm x.md
  ({ command := Op.Unknown, src := Parameter.Reg16 x.reg, dst := dstP }, c2)

/-- `CPU::r16_rm16`: decode r16, r/m16 (swap of `rm16_r16`). -/
def r16_rm16 (c : CPU) : Parameters × CPU :=
  let (res, c1) := rm16_r16 c
  ({ res with src := res.dst, dst := res.src }, c1)

/-- `CPU::decode_81` of `src/cpu.rs`: the 0x81 group (only reg=0 → ADD16
is implemented). -/
def decode_81 (c : CPU) : Parameters × CPU :=
  let (x, c1) := read_mod_reg_rm c
  let (imm, c2) := read_u16 c1
  let cmd := if x.reg = 0 then Op.Add16 else Op.Unknown
  ({ command := cmd, src := Parameter.Imm16 imm, dst := Parameter.Reg16 x.rm }, c2)

/-- `CPU::decode_fe` of `src/cpu.rs`: the 0xFE group (only reg=1 → DEC8
is implemented). -/
def decode_fe (c : CPU) : Parameters × CPU :=
  let (x, c1) := read_mod_reg_rm c
  let (dstP, c2) := rm8 c1 x.rm x.md
  let cmd := if x.reg = 1 then Op.Dec8 else Op.Unknown
  ({ command := cmd, src := Parameter.Empty, dst := dstP }, c2)

/-- `CPU::decode_instruction` of `src/cpu.rs`: the full opcode dispatch
table of the file, embedded arm for arm. -/
def decode_instruction (c0 : CPU) : Parameters × CPU :=
  let (b, c) := read_u8 c0
  if b = 0x07 then
    ({ command := Op.Pop16, src := Parameter.Empty, dst := Parameter.SReg16 ES }, c)
  else if b = 0x1E then
    ({ command := Op.Push16, src := Parameter.Empty, dst := Parameter.SReg16 DS }, c)
  else if b = 0x31 then
    let (part, c1) := r16_rm16 c
    ({ command := Op.Xor16, src := part.src, dst := part.dst }, c1)
  else if 0x40 ≤ b ∧ b ≤ 0x47 then
    ({ command := Op.Inc16, src := Parameter.Empty, dst := Parameter.Reg16 (b &&& 7) }, c)
  else if 0x50 ≤ b ∧ b ≤ 0x57 then
    ({ command := Op.Push16, src := Parameter.Empty, dst := Parameter.Reg16 (b &&& 7) }, c)
  else if 0x58 ≤ b ∧ b ≤ 0x5F then
    ({ command := Op.Pop16, src := Parameter.Empty, dst := Parameter.Reg16 (b &&& 7) }, c)
  else if b = 0x81 then
    decode_81 c
  else if b = 0x88 then
    let (part, c1) := rm8_r8 c
    ({ command := Op.Mov8, src := part.src, dst := part.dst }, c1)
  else if b = 0x8E then
    let (part, c1) := sreg_rm16 c
    ({ command := Op.Mov16, src := part.src, dst := part.dst }, c1)
  else if b = 0xAA then
    ({ command := Op.Stosb, src := Parameter.Empty, dst := Parameter.Empty }, c)
  else if 0xB8 ≤ b ∧ b ≤ 0xBF then
    let (imm, c1) := read_u16 c
    ({ command := Op.Mov16, src := Parameter.Imm16 imm, dst := Parameter.Reg16 (b &&& 7) }, c1)
  else if b = 0xCD then
    let (imm, c1) := read_u8 c
    ({ command := Op.Int, src := Parameter.Empty, dst := Parameter.Imm8 imm }, c1)
  else if b = 0xE2 then
    let (rel, c1) := read_rel8 c
    ({ command := Op.Loop, src := Parameter.Empty, dst := Parameter.Imm16 rel }, c1)
  else if b = 0xE8 then
    let (rel, c1) := read_rel16 c
    ({ command := Op.CallNear, src := Parameter.Empty, dst := Parameter.Imm16 rel }, c1)
  else if b = 0xFA then
    ({ command := Op.Unknown, src := Parameter.Empty, dst := Parameter.Empty }, c)
  else if b = 0xFE then
    decode_fe c
  else
    ({ command := Op.Unknown, src := Parameter.Empty, dst := Parameter.Empty }, c)

/-- `CPU::get_parameter_value` of `src/cpu.rs`. -/
def get_parameter_value (c : CPU) (p : Parameter) : Nat :=
  match p with
  | Parameter.Reg8 r =>
      let lor := r &&& 3
      if r &&& 4 = 0 then c.r16 lor &&& 0xFF else (c.r16 lor >>> 8) % 256
  | Parameter.Reg16 r => c.r16 r
  | Parameter.SReg16 r => c.sreg16 r
  | Parameter.Imm8 imm => imm
  | Parameter.Imm16 imm => imm
  | Parameter.Empty => 0

/-- `CPU::write_u8_param` of `src/cpu.rs` (`Register16::set_lo` /
`set_hi` inlined; only `Reg8` destinations are handled by the source). -/
def write_u8_param (c : CPU) (p : Parameter) (data : Nat) : CPU :=
  match p with
  | Parameter.Reg8 r =>
      let lor := r &&& 3
      if r &&& 4 = 0 then
        { c with r16 := updF c.r16 lor ((c.r16 lor &&& 0xFF00) + data % 256) }
      else
        { c with r16 := updF c.r16 lor ((c.r16 lor &&& 0xFF) + data % 256 * 256) }
  | _ => c

/-- `CPU::write_u16_param` of `src/cpu.rs` (only `Reg16` and `SReg16`
destinations are handled by the source). -/
def write_u16_param (c : CPU) (p : Parameter) (data : Nat) : CPU :=
  match p with
  | Parameter.Reg16 r => { c with r16 := updF c.r16 r data }
  | Parameter.SReg16 r => { c with sreg16 := updF c.sreg16 r data }
  | _ => c

/-- `CPU::push16` of `src/cpu.rs`: decrement SP by 2 (16-bit wrap), then
store the word at the flat address `SS*16 + SP`. -/
def push16 (c : CPU) (data : Nat) : CPU :=
  let c1 := { c with r16 := updF c.r16 SP ((c.r16 SP + 65536 - 2) % 65536) }
  let offset := c1.sreg16 SS * 16 + c1.r16 SP
  write_u16 c1 offset data

/-- `CPU::execute` of `src/cpu.rs`, arm for arm. Truncating `as u8` /
`as u16` casts become `% 256` / `% 65536`; the fixed-width `+= / -=`
register updates wrap at their width. -/
def execute (c0 : CPU) (op : Parameters) : CPU :=
  let c := { c0 with instruction_count := c0.instruction_count + 1 }
  match op.command with
  | Op.Add16 =>
      let srcV := get_parameter_value c op.src % 65536
      let dstV := get_parameter_value c op.dst % 65536
      write_u16_param c op.dst ((dstV + srcV) % 65536)
  | Op.CallNear =>
      let old_ip := c.ip
      let temp_ip := get_parameter_value c op.dst % 65536
      let c1 := push16 c old_ip
      { c1 with ip := temp_ip }
  | Op.Dec8 =>
      let data := get_parameter_value c op.dst % 256
      write_u8_param c op.dst ((data + 256 - 1) % 256)
  | Op.Inc16 =>
      let data := get_parameter_value c op.dst % 65536
      write_u16_param c op.dst ((data + 1) % 65536)
  | Op.Int =>
      c
  | Op.Loop =>
      let dst := get_parameter_value c op.dst % 65536
      let c1 := { c with r16 := updF c.r16 CX ((c.r16 CX + 65536 - 1) % 65536) }
      if c1.r16 CX ≠ 0 then { c1 with ip := dst } else c1
  | Op.Mov8 =>
      let data := get_parameter_value c op.src % 256
      write_u8_param c op.dst data
  | Op.Mov16 =>
      let data := get_parameter_value c op.src % 65536
      write_u16_param c op.dst data
  | Op.Pop16 =>
      let offset := c.sreg16 SS * 16 + c.r16 SP
      let data := peek_u16_at c offset
      let c1 := { c with r16 := updF c.r16 SP ((c.r16 SP + 2) % 65536) }
      write_u16_param c1 op.dst data
  | Op.Push16 =>
      let data := get_parameter_value c op.dst % 65536
      push16 c data
  | Op.Stosb =>
      let offset := c.sreg16 ES * 16 + c.r16 DI
      let data := c.r16 AX &&& 0xFF
      let c1 := write_u8 c offset data
      if c1.flags.direction = false then
        { c1 with r16 := updF c1.r16 DI ((c1.r16 DI + 1) % 65536) }
      else
        { c1 with r16 := updF c1.r16 DI ((c1.r16 DI + 65536 - 1) % 65536) }
  | Op.Xor16 =>
      let srcV := get_parameter_value c op.src % 65536
      let dstV := get_parameter_value c op.dst % 65536
      write_u16_param c op.dst (dstV ^^^ srcV)
  | Op.Unknown =>
      c

/-- `CPU::execute_instruction` of `src/cpu.rs`: decode at CS:IP, then
execute. -/
def execute_instruction (c : CPU) : CPU :=
  let (op, c1) := decode_instruction c
  execute c1 op

/-- `CPU::new` of `src/cpu.rs`: zero-filled memory, all registers zero,
then `SS := 0`, `SP := 0xFFF0` and the testing value `DS := 0xDEAD`. -/
def CPU.new : CPU :=
  { ip := 0
    instruction_count := 0
    memory := fun _ => 0
    r16 := updF (fun _ => 0) SP 0xFFF0
    sreg16 := updF (fun _ => 0) DS 0xDEAD
    flags :=
      { carry := false, reserved1 := false, parity := false, reserved3 := false
        adjust := false, reserved5 := false, zero := false, sign := false
        trap := false, interrupt_enable := false, direction := false
        overflow := false, iopl12 := false, iopl13 := false
        nested_task := false, reserved15 := false, resume := false
        virtual_mode := false, alignment_check := false
        virtual_interrupt := false, virtual_interrupt_pending := false
        cpuid := false } }

/-- `CPU::load_rom` of `src/cpu.rs`: set IP to the load offset and copy
the data there, clipped to the first 64 KiB. -/
def load_rom (c : CPU) (data : List Nat) (offset : Nat) : CPU :=
  let maxA := if 0x10000 < offset + data.length then 0x10000 else offset + data.length
  { c with
    ip := offset
    memory := fun a => if offset ≤ a ∧ a < maxA then data.getD (a - offset) 0 else c.memory a }

end OldCpu

/-- Byte-array wrapper `Memory` of `src/memory.rs`. `Memory::new`
allocates `vec![0u8; 0x10000 * 64]`, kept here as a concrete list so the
allocation size is part of the model. -/
structure Memory where
  memory : List Nat

/-- `Memory::new` of `src/memory.rs`. -/
def Memory.new : Memory :=
  { memory := List.replicate (0x10000 * 64) 0 }

/-- `MMU::to_flat` of `src/memory/mmu.rs`: translate a segment:offset
pair to a physical address, `((seg as u32) << 4) + offset`. -/
def MMU.to_flat (seg offset : Nat) : Nat :=
  (seg <<< 4) + offset

/-- MMU of `src/memory/mmu.rs`. The backing `FlatMemory` is not under
src/ (only `src/memory.rs`'s `Memory` is); modelled from the spec: the
flat store is a zero-initialised contiguous byte array, embedded as a
total byte function. -/
structure MMU where
  memory : Nat → Nat

/-- `MMU::new`: fresh zero-filled flat memory. -/
def MMU.new : MMU :=
  { memory := fun _ => 0 }

/-- Sequential byte store underlying `FlatMemory::write` (write each
byte of `data` at consecutive flat addresses starting at `a`). -/
def writeBytes (mem : Nat → Nat) (a : Nat) : List Nat → (Nat → Nat)
  | [] => mem
  | b :: rest => writeBytes (fun x => if x = a then b % 256 else mem x) (a + 1) rest

/-- `MMU::write` of `src/memory/mmu.rs`: write a byte slice at
segment:offset (delegates to the byte array at the flat address). -/
def MMU.write (mm : MMU) (seg offset : Nat) (data : List Nat) : MMU :=
  { mm with memory := writeBytes mm.memory (MMU.to_flat seg offset) data }

/-- `MMU::write_u8` of `src/memory/mmu.rs`. -/
def MMU.write_u8 (mm : MMU) (seg offset data : Nat) : MMU :=
  { mm with memory := fun x => if x = MMU.to_flat seg offset then data % 256 else mm.memory x }

/-- `MMU::read_u8` of `src/memory/mmu.rs`. -/
def MMU.read_u8 (mm : MMU) (seg offset : Nat) : Nat :=
  mm.memory (MMU.to_flat seg offset) % 256

/-- `MMU::read_u16` of `src/memory/mmu.rs`: little-endian 16-bit read at
the flat address. -/
def MMU.read_u16 (mm : MMU) (seg offset : Nat) : Nat :=
  mm.memory (MMU.to_flat seg offset) % 256 +
    256 * (mm.memory (MMU.to_flat seg offset + 1) % 256)

/-- Register name enum `R` of the interpreter's register module (not
under src/). Modelled from the spec: eight general 16-bit registers and
six segment registers, as named by `src/machine.rs`. -/
inductive R where
  | AX | CX | DX | BX | SP | BP | SI | DI
  | ES | CS | SS | DS | FS | GS
deriving DecidableEq

/-- Register snapshot of the interpreter module (not under src/).
Modelled from the spec: the 16-bit register file plus the instruction
pointer, accessed by `src/machine.rs` as `cpu.regs` / `cpu.regs.ip`. -/
structure RegisterSnapshot where
  r16 : R → Nat
  ip : Nat

/-- CPU record of the interpreter module (not under src/). Modelled from
the spec, restricted to the fields `src/machine.rs` reads or writes:
registers, fatal-error flag, ROM extent, and the two counters. -/
structure MachineCPU where
  regs : RegisterSnapshot
  fatal_error : Bool
  rom_base : Nat
  rom_length : Nat
  instruction_count : Nat
  cycle_count : Nat

/-- `CPU::set_r16` of the interpreter module (not under src/). Modelled
from the spec: store a 16-bit value in the named register. -/
def MachineCPU.set_r16 (c : MachineCPU) (r : R) (v : Nat) : MachineCPU :=
  { c with regs := { c.regs with r16 := fun x => if x = r then v else c.regs.r16 x } }

/-- `CPU::get_r16` of the interpreter module (not under src/). Modelled
from the spec: read the named 16-bit register. -/
def MachineCPU.get_r16 (c : MachineCPU) (r : R) : Nat :=
  c.regs.r16 r

/-- `CPU::get_address` of the interpreter module (not under src/).
Modelled from the spec: the flat 20-bit address of CS:IP
(`segment*16 + offset`). -/
def MachineCPU.get_address (c : MachineCPU) : Nat :=
  MMU.to_flat (c.get_r16 R.CS) c.regs.ip

/-- `CPU::default` of the interpreter module (not under src/). Modelled
from the spec: a reset CPU record; the loader overwrites every field the
claims inspect, so the concrete reset values are immaterial. -/
def MachineCPU.default : MachineCPU :=
  { regs := { r16 := fun _ => 0, ip := 0 }
    fatal_error := false
    rom_base := 0
    rom_length := 0
    instruction_count := 0
    cycle_count := 0 }

/-- Decode-error enum `Invalid` of `src/cpu/op.rs` (renamed here because
the constructor `Op.Invalid` below refers to it). -/
inductive InvalidKind where
  | Reg (v : Nat)
  | Op
  | FPUOp
deriving DecidableEq

/-- Instruction-kind enum `Op` of `src/cpu/op.rs`, complete. -/
inductive Op where
  | Aaa | Aad | Aam | Aas
  | Adc8 | Adc16 | Adc32
  | Add8 | Add16 | Add32
  | And8 | And16 | And32
  | Arpl | Bound | Bsf | Bt | Bts
  | CallNear | CallFar
  | Cbw | Clc | Cld | Cli | Cmc
  | Cmp8 | Cmp16 | Cmp32
  | Cmpsb | Cmpsw
  | Cwd16 | Cwde32
  | Daa | Das
  | Dec8 | Dec16 | Dec32
  | Div8 | Div16 | Div32
  | Enter | Hlt
  | Idiv8 | Idiv16 | Idiv32
  | Imul8 | Imul16 | Imul32
  | In8 | In16
  | Inc8 | Inc16 | Inc32
  | Insb | Insw
  | Int | Into | Iret
  | Ja | Jc | Jcxz | Jg | Jl
  | JmpShort | JmpNear | JmpFar
  | Jna | Jnc | Jng | Jnl | Jno | Jns | Jnz
  | Jo | Jpe | Jpo | Js | Jz
  | Lahf | Lds | Lea16 | Leave | Les
  | Lodsb | Lodsw | Lodsd
  | Loop | Loope | Loopne
  | Mov8 | Mov16 | Mov32
  | Movsb | Movsw | Movsd
  | Movsx16 | Movsx32
  | Movzx16 | Movzx32
  | Mul8 | Mul16 | Mul32
  | Neg8 | Neg16 | Neg32
  | Nop
  | Not8 | Not16 | Not32
  | Or8 | Or16 | Or32
  | Out8 | Out16
  | Outsb | Outsw
  | Pop16 | Pop32
  | Popa16 | Popad32 | Popf
  | Push16 | Push32
  | Pusha16 | Pushad32 | Pushf
  | Rcl8 | Rcl16 | Rcl32
  | Rcr8 | Rcr16 | Rcr32
  | Retn | Retf | RetImm16
  | Rol8 | Rol16 | Rol32
  | Ror8 | Ror16 | Ror32
  | Sahf | Salc
  | Sar8 | Sar16 | Sar32
  | Sbb8 | Sbb16 | Sbb32
  | Scasb | Scasw
  | Setc | Setg | Setnz
  | Shl8 | Shl16 | Shl32
  | Shld
  | Shr8 | Shr16 | Shr32
  | Shrd | Sldt
  | Stc | Std | Sti
  | Stosb | Stosw | Stosd
  | Sub8 | Sub16 | Sub32
  | Test8 | Test16 | Test32
  | Xchg8 | Xchg16 | Xchg32
  | Xlatb
  | Xor8 | Xor16 | Xor32
  | Uninitialized
  | Invalid (bytes : List Nat) (kind : InvalidKind)

/-- `Op::is_valid` of `src/cpu/op.rs`. -/
def Op.is_valid : Op → Bool
  | Op.Uninitialized => false
  | Op.Invalid _ _ => false
  | _ => true

/-- Operand variant set of the decoder's parameter module (not under
src/). Modelled from the spec: `Imm8 | Imm16 | Imm32 | Reg8 | Reg16 |
SReg16 | Ptr16Amode(seg, amode) | Ptr16AmodeS8(seg, amode, i8) |
Ptr16AmodeS16(seg, amode, i16) | Ptr16(seg, u16) | Ptr16Imm(seg, off) |
None`. -/
inductive Param where
  | Imm8 (v : Nat)
  | Imm16 (v : Nat)
  | Imm32 (v : Nat)
  | Reg8 (r : Nat)
  | Reg16 (r : Nat)
  | SReg16 (r : Nat)
  | Ptr16Amode (seg amode : Nat)
  | Ptr16AmodeS8 (seg amode : Nat) (d : Int)
  | Ptr16AmodeS16 (seg amode : Nat) (d : Int)
  | Ptr16 (seg v : Nat)
  | Ptr16Imm (seg off : Nat)
  | None
deriving DecidableEq

/-- Instruction record of the decoder's instruction module (not under
src/). Modelled from the spec: the command, the destination operand
(the only operand the claims inspect), and the byte length. -/
structure Instr where
  command : Op
  dst : Param
  length : Nat

/-- Graphics-mode kind enum `GFXMode` of the gpu modes module (not under
src/). Modelled from the spec's palette kinds plus the `TANDY16`
variant `src/gpu/render.rs` matches on. -/
inductive GFXMode where
  | TEXT | CGA2 | CGA4 | EGA | VGA | TANDY16
deriving DecidableEq

/-- Palette entry of the gpu palette module (not under src/). Modelled
from the spec: a DAC entry is an RGB triple. -/
inductive ColorSpace where
  | RGB (r g b : Nat)
deriving DecidableEq

/-- DAC of the gpu dac module (not under src/). Modelled from the spec:
a palette table of RGB triples plus a read and a write index. -/
structure DAC where
  pal : Nat → ColorSpace
  pel_read_index : Nat
  pel_write_index : Nat

/-- Video mode block of the gpu modes module (not under src/). Modelled
from the spec, restricted to the fields `src/gpu/render.rs`'s frame
composition reads: the mode number, screen width and height, and the
kind. -/
structure VideoModeBlock where
  mode : Nat
  swidth : Nat
  sheight : Nat
  kind : GFXMode

/-- GPU state of `src/gpu/render.rs` (struct `GPU`), restricted to the
fields the claims touch: scanline counter, DAC and current mode block.
The omitted fields (CRTC, font pointers, card tag, mode list) are never
read by the embedded functions. -/
structure GPU where
  scanline : Nat
  dac : DAC
  mode : VideoModeBlock

/-- `GPU::default` of `src/gpu/render.rs`: scanline 0 and the mode block
for text mode 3 (`modes[3]`). The mode-block table is not under src/;
its concrete values are modelled from the spec and immaterial to the
claims. -/
def GPU.default : GPU :=
  { scanline := 0
    dac := { pal := fun _ => ColorSpace.RGB 0 0 0, pel_read_index := 0, pel_write_index := 0 }
    mode := { mode := 3, swidth := 640, sheight := 400, kind := GFXMode.TEXT } }

/-- `GPU::progress_scanline` of `src/gpu/render.rs`: advance the
scanline counter, wrapping past `mode.swidth`. -/
def GPU.progress_scanline (g : GPU) : GPU :=
  let s := g.scanline + 1
  if g.mode.swidth < s then { g with scanline := 0 } else { g with scanline := s }

/-- Hardware record of the hardware module (not under src/). Modelled
from the spec: the MMU, the GPU, and the peripheral tick sinks
(represented by the PIT counter-0 value; PIC/CMOS hold no state any
claim touches). -/
structure Hardware where
  mmu : MMU
  gpu : GPU
  pit : Nat

/-- `Hardware::default`: fresh MMU and GPU, PIT counter at zero. -/
def Hardware.default : Hardware :=
  { mmu := MMU.new, gpu := GPU.default, pit := 0 }

/-- `Machine` of `src/machine.rs`: the hardware and the CPU. -/
structure Machine where
  hw : Hardware
  cpu : MachineCPU

/-- `Machine::default` of `src/machine.rs`. -/
def Machine.default : Machine :=
  { hw := Hardware.default, cpu := MachineCPU.default }

/-- `Machine::hard_reset` of `src/machine.rs`: replace the CPU record
with its default; nothing else is touched. -/
def Machine.hard_reset (m : Machine) : Machine :=
  { m with cpu := MachineCPU.default }

/-- `Machine::load_com` of `src/machine.rs`: place the data at
0x085F:0x0100, seed the registers with the documented start-up values,
and record the flat ROM base and length. -/
def Machine.load_com (m : Machine) (data : List Nat) : Machine :=
  let psp_segment := 0x085F
  let c0 := m.cpu
  let c1 := ((((c0.set_r16 R.CS psp_segment).set_r16 R.DS psp_segment).set_r16
      R.ES psp_segment).set_r16 R.SS psp_segment)
  let c2 := (c1.set_r16 R.SP 0xFFFE).set_r16 R.BP 0x091C
  let c3 := (((c2.set_r16 R.CX 0x00FF).set_r16 R.DX psp_segment).set_r16
      R.SI 0x0100).set_r16 R.DI 0xFFFE
  let c4 := { c3 with regs := { c3.regs with ip := 0x0100 } }
  let c5 := { c4 with rom_base := c4.get_address, rom_length := data.length }
  let cs := c5.get_r16 R.CS
  { m with
    cpu := c5
    hw := { m.hw with mmu := m.hw.mmu.write cs c5.regs.ip data } }

/-- Little-endian 16-bit field read used by the bincode deserialization
of the MZ header in `src/machine.rs` (`ExeHeader` is 14 packed words,
little-endian). -/
def exeWord (data : List Nat) (i : Nat) : Nat :=
  data.getD i 0 % 256 + 256 * (data.getD (i + 1) 0 % 256)

/-- `Machine::load_exe` of `src/machine.rs`. Deserializes the header,
reads (only) the first relocation entry without applying it, computes
the code slice, loads it via `load_com`, then overrides SP and SS from
the header. Every Rust panic (short buffer for the header or the
relocation slice, out-of-range code slice, usize underflow in the
`bytes_in_last_block` adjustment) is `none`. -/
def Machine.load_exe (m : Machine) (data : List Nat) : Option Machine :=
  if data.length < 28 then none
  else
    let bytes_in_last_block := exeWord data 2
    let blocks_in_file := exeWord data 4
    let num_relocs := exeWord data 6
    let header_paragraphs := exeWord data 8
    let hdr_ss := exeWord data 14
    let hdr_sp := exeWord data 16
    let reloc_table_offset := exeWord data 24
    let reloc_from := reloc_table_offset
    let reloc_to := reloc_table_offset + num_relocs * 4
    if data.length < reloc_to then none
    else if reloc_to - reloc_from < 4 then none
    else
      let code_offset := header_paragraphs * 16
      let code_end0 := blocks_in_file * 512
      if bytes_in_last_block > 0 ∧ code_end0 < 512 - bytes_in_last_block then none
      else
        let code_end :=
          if bytes_in_last_block > 0 then code_end0 - (512 - bytes_in_last_block)
          else code_end0
        if data.length < code_end ∨ code_end < code_offset then none
        else
          let m1 := m.load_com ((data.drop code_offset).take (code_end - code_offset))
          some { m1 with cpu := (m1.cpu.set_r16 R.SP hdr_sp).set_r16 R.SS hdr_ss }

/-- `Machine::load_executable` of `src/machine.rs`: dispatch on the
first two bytes. Rust indexes `data[0]` and — when the first byte is
'M' — `data[1]`, so the empty buffer and the one-byte buffer `['M']`
panic (`none`); any other short buffer short-circuits to `load_com`. -/
def Machine.load_executable (m : Machine) (data : List Nat) : Option Machine :=
  match data with
  | [] => none
  | [b0] => if b0 = 0x4D then none else some (m.load_com data)
  | b0 :: b1 :: _ =>
      if b0 = 0x4D ∧ b1 = 0x5A then m.load_exe data else some (m.load_com data)

/-- `CPU::handle_interrupt` of the interrupt module (not under src/).
Modelled from the spec: the only high-level handler behaviour any claim
relies on is that INT 10h AH=0Eh (teletype output of a printable
character) updates the cursor position, which lives in the BIOS data
area at 0x0040:0x50 + page*2 (here page 0, so flat 0x450); the model
advances the stored cursor column by one. All other interrupts are left
as the identity, which only under-approximates the handlers' effects. -/
def handle_interrupt (m : Machine) (int_no : Nat) : Machine :=
  if int_no = 0x10 ∧ m.cpu.get_r16 R.AX / 256 % 256 = 0x0E then
    let col := m.hw.mmu.memory 0x450 % 256
    { m with hw := { m.hw with mmu := m.hw.mmu.write_u8 0x0040 0x50 ((col + 1) % 256) } }
  else m

/-- Tick tail of `Machine::execute_instruction` of `src/machine.rs`:
advance the GPU scanline and the PIT counter every 100 cycles. The PIT
counter decrement lives in a module not under src/ and is a
parameter. -/
def Machine.apply_periph_ticks (pitDec : Nat → Nat) (m2 : Machine) : Machine :=
  let m3 :=
    if m2.cpu.cycle_count % 100 = 0 then
      { m2 with hw := { m2.hw with gpu := m2.hw.gpu.progress_scanline } }
    else m2
  if m3.cpu.cycle_count % 100 = 0 then
    { m3 with hw := { m3.hw with pit := pitDec m3.hw.pit } }
  else m3

/-- `Machine::execute_instruction` of `src/machine.rs`. The decoder, the
high-level interrupt dispatch, the per-opcode executor and the PIT tick
live in modules that are not under src/, so they are taken as
parameters; everything else follows the source: run the high-level
interrupt when CS = 0xF000, decode at (CS, IP), set `fatal_error` (and
skip the executor) on `Uninitialized`/`Invalid`, otherwise execute, and
finally apply the peripheral ticks. The `println!` diagnostics of the
source carry no state. -/
def Machine.execute_instruction
    (decode : (Nat → Nat) → Nat → Nat → Instr)
    (handleInt : Machine → Nat → Machine)
    (exec : Machine → Instr → Machine)
    (pitDec : Nat → Nat)
    (m : Machine) : Machine :=
  let cs := m.cpu.get_r16 R.CS
  let ip := m.cpu.regs.ip
  let m1 := if cs = 0xF000 then handleInt m (ip % 256) else m
  let op := decode m1.hw.mmu.memory cs ip
  let m2 :=
    match op.command with
    | Op.Uninitialized => { m1 with cpu := { m1.cpu with fatal_error := true } }
    | Op.Invalid _ _ => { m1 with cpu := { m1.cpu with fatal_error := true } }
    | _ => exec m1 op
  Machine.apply_periph_ticks pitDec m2

/-- `MemoryAddress` of the memory module (not under src/). Modelled from
the spec: a tagged seg:offset pair or an unset sentinel; the flat value
is `segment*16 + offset`; incrementing preserves the segment and wraps
the 16-bit offset. -/
inductive MemoryAddress where
  | RealSegmentOffset (seg off : Nat)
  | Unset
deriving DecidableEq

/-- Flat 20-bit value of a `MemoryAddress` (spec: equality and ordering
use this value). -/
def MemoryAddress.value : MemoryAddress → Nat
  | MemoryAddress.RealSegmentOffset seg off => seg * 16 + off
  | MemoryAddress.Unset => 0

/-- Segment accessor of a `MemoryAddress`. -/
def MemoryAddress.segment : MemoryAddress → Nat
  | MemoryAddress.RealSegmentOffset seg _ => seg
  | MemoryAddress.Unset => 0

/-- Offset accessor of a `MemoryAddress`. -/
def MemoryAddress.offset : MemoryAddress → Nat
  | MemoryAddress.RealSegmentOffset _ off => off
  | MemoryAddress.Unset => 0

/-- `MemoryAddress::inc_n`: advance the offset by a 16-bit delta,
preserving the segment. -/
def MemoryAddress.inc_n (ma : MemoryAddress) (n : Nat) : MemoryAddress :=
  match ma with
  | MemoryAddress.RealSegmentOffset seg off =>
      MemoryAddress.RealSegmentOffset seg ((off + n) % 65536)
  | MemoryAddress.Unset => MemoryAddress.Unset

/-- `SeenDestination` of `src/disassembler/src/tracer.rs`. -/
structure SeenDestination where
  address : MemoryAddress
  sources : List MemoryAddress
  visited : Bool
deriving DecidableEq

/-- `Tracer` of `src/disassembler/src/tracer.rs`. -/
structure Tracer where
  seen_destinations : List SeenDestination
  visited_addresses : List MemoryAddress
deriving DecidableEq

/-- `Tracer::new`. -/
def Tracer.new : Tracer :=
  { seen_destinations := [], visited_addresses := [] }

/-- Body of `Tracer::learn_destination`: append the source to the first
already-seen destination with the same flat value, or push a fresh
destination at the end. -/
def learnList (l : List SeenDestination) (ma src : MemoryAddress) : List SeenDestination :=
  match l with
  | [] => [{ address := ma, sources := [src], visited := false }]
  | d :: rest =>
      if d.address.value = ma.value then
        { d with sources := d.sources ++ [src] } :: rest
      else
        d :: learnList rest ma src

/-- `Tracer::learn_destination` of `src/disassembler/src/tracer.rs`. -/
def Tracer.learn_destination (t : Tracer) (seg offset : Nat) (src : MemoryAddress) : Tracer :=
  { t with
    seen_destinations :=
      learnList t.seen_destinations (MemoryAddress.RealSegmentOffset seg offset) src }

/-- `Tracer::has_visited_address` of `src/disassembler/src/tracer.rs`:
membership in the visited set, compared by flat value. -/
def Tracer.has_visited_address (t : Tracer) (ma : MemoryAddress) : Bool :=
  t.visited_addresses.any (fun v => v.value = ma.value)

/-- `Tracer::has_any_unvisited_destinations`. -/
def Tracer.has_any_unvisited_destinations (t : Tracer) : Bool :=
  t.seen_destinations.any (fun d => !d.visited)

/-- `Tracer::get_unvisited_destination`: the first non-visited seen
destination, if any. -/
def Tracer.get_unvisited_destination (t : Tracer) : Option MemoryAddress :=
  (t.seen_destinations.find? (fun d => !d.visited)).map (fun d => d.address)

/-- Body of `Tracer::mark_destination_visited`: set the visited flag on
the first destination equal to the address (spec: `MemoryAddress`
equality compares the flat value). -/
def markList (l : List SeenDestination) (ma : MemoryAddress) : List SeenDestination :=
  match l with
  | [] => []
  | d :: rest =>
      if d.address.value = ma.value then { d with visited := true } :: rest
      else d :: markList rest ma

/-- `Tracer::mark_destination_visited` of `src/disassembler/src/tracer.rs`. -/
def Tracer.mark_destination_visited (t : Tracer) (ma : MemoryAddress) : Tracer :=
  { t with seen_destinations := markList t.seen_destinations ma }

/-- Classification of an `Op` by the match arms of the walk loop in
`Tracer::trace_unvisited_destination` (`src/disassembler/src/tracer.rs`
lines 180–212), transcribed arm for arm. -/
inductive TraceClass where
  | invalidOp
  | retImm
  | ret
  | jmpUncond
  | condBranch
  | other
deriving DecidableEq

/-- Dispatch of the tracer's match on the decoded command, arm for arm
from the source. -/
def traceClass : Op → TraceClass
  | Op.Invalid _ _ => TraceClass.invalidOp
  | Op.RetImm16 => TraceClass.retImm
  | Op.Retn | Op.Retf => TraceClass.ret
  | Op.JmpNear | Op.JmpFar | Op.JmpShort => TraceClass.jmpUncond
  | Op.CallNear | Op.CallFar | Op.Loop | Op.Loope | Op.Loopne
  | Op.Ja | Op.Jc | Op.Jcxz | Op.Jg | Op.Jl
  | Op.Jna | Op.Jnc | Op.Jng | Op.Jnl | Op.Jno | Op.Jns | Op.Jnz
  | Op.Jo | Op.Jpe | Op.Jpo | Op.Js | Op.Jz => TraceClass.condBranch
  | _ => TraceClass.other

/-- Branch-target recording shared by the unconditional-jump and
conditional-branch arms: only an `Imm16` destination operand is
learned (register and memory destinations are ignored). -/
def learnImmTarget (t : Tracer) (ii : Instr) (ma : MemoryAddress) : Tracer :=
  match ii.dst with
  | Param.Imm16 imm => t.learn_destination ma.segment imm ma
  | _ => t

/-- Outcome of one iteration of the tracer's walk loop: continue at the
next address, end the path, or hit the `RetImm16` `panic!`. -/
inductive WalkOutcome where
  | next (t : Tracer) (ma : MemoryAddress)
  | stop (t : Tracer)
  | panicked (t : Tracer)
deriving DecidableEq

/-- Tracer of the walk outcome, whichever constructor. -/
def WalkOutcome.tracer : WalkOutcome → Tracer
  | WalkOutcome.next t _ => t
  | WalkOutcome.stop t => t
  | WalkOutcome.panicked t => t

/-- One iteration of the walk loop of
`Tracer::trace_unvisited_destination` (`src/disassembler/src/tracer.rs`
lines 167–218): decode at the address; break when the address was
already visited; otherwise record it as visited, dispatch on the
command (`Invalid` only prints; `RetImm16` panics; RET near/far breaks;
unconditional JMP learns an immediate target and breaks; conditional
branches learn an immediate target and continue), advance by the
instruction length, and break when that leaves the ROM extent. -/
def walkStep (decode : Nat → Nat → Instr) (rom_base rom_length : Nat)
    (t : Tracer) (ma : MemoryAddress) : WalkOutcome :=
  let ii := decode ma.segment ma.offset
  if t.has_visited_address ma then WalkOutcome.stop t
  else
    let t1 := { t with visited_addresses := t.visited_addresses ++ [ma] }
    match traceClass ii.command with
    | TraceClass.retImm => WalkOutcome.panicked t1
    | TraceClass.ret => WalkOutcome.stop t1
    | TraceClass.jmpUncond => WalkOutcome.stop (learnImmTarget t1 ii ma)
    | TraceClass.condBranch =>
        let t2 := learnImmTarget t1 ii ma
        let ma2 := ma.inc_n ii.length
        if (ma2.value : Int) - (rom_base : Int) ≥ (rom_length : Int) then WalkOutcome.stop t2
        else WalkOutcome.next t2 ma2
    | _ =>
        let ma2 := ma.inc_n ii.length
        if (ma2.value : Int) - (rom_base : Int) ≥ (rom_length : Int) then WalkOutcome.stop t1
        else WalkOutcome.next t1 ma2

/-- Fuel-bounded iteration of `walkStep` (the loop of
`Tracer::trace_unvisited_destination`); with fuel exhausted the current
position is reported as a `next` outcome. -/
def walkLoop (decode : Nat → Nat → Instr) (rom_base rom_length : Nat) :
    Nat → Tracer → MemoryAddress → WalkOutcome
  | 0, t, ma => WalkOutcome.next t ma
  | fuel + 1, t, ma =>
      match walkStep decode rom_base rom_length t ma with
      | WalkOutcome.next t1 ma1 => walkLoop decode rom_base rom_length fuel t1 ma1
      | r => r

/-- `Tracer::trace_unvisited_destination` of
`src/disassembler/src/tracer.rs`: pick the first unvisited destination,
short-circuit when its address was already visited, otherwise walk the
straight-line path, and finally mark the destination visited. A
`RetImm16` panic aborts (`none`). -/
def Tracer.trace_unvisited_destination (decode : Nat → Nat → Instr)
    (rom_base rom_length fuel : Nat) (t : Tracer) : Option Tracer :=
  match t.get_unvisited_destination with
  | Option.none => some t
  | some ma =>
      if t.has_visited_address ma then some (t.mark_destination_visited ma)
      else
        match walkLoop decode rom_base rom_length fuel t ma with
        | WalkOutcome.panicked _ => none
        | WalkOutcome.stop t1 => some (t1.mark_destination_visited ma)
        | WalkOutcome.next t1 _ => some (t1.mark_destination_visited ma)

/-- Boolean stop-test on a walk outcome (a normal path end, as opposed
to the `RetImm16` panic or a continuation). -/
def WalkOutcome.isStop : WalkOutcome → Bool
  | WalkOutcome.stop _ => true
  | _ => false

/-- Boolean panic-test on a walk outcome. -/
def WalkOutcome.isPanicked : WalkOutcome → Bool
  | WalkOutcome.panicked _ => true
  | _ => false

/-- Boolean continue-test on a walk outcome. -/
def WalkOutcome.isNext : WalkOutcome → Bool
  | WalkOutcome.next _ _ => true
  | _ => false

/-- Commands of the conditional-branch arm of the tracer's match
(`src/disassembler/src/tracer.rs` lines 197–200): CALL near/far, the
LOOP family, and the Jcc family. -/
def condBranchOps : List Op :=
  [Op.CallNear, Op.CallFar, Op.Loop, Op.Loope, Op.Loopne,
   Op.Ja, Op.Jc, Op.Jcxz, Op.Jg, Op.Jl,
   Op.Jna, Op.Jnc, Op.Jng, Op.Jnl, Op.Jno, Op.Jns, Op.Jnz,
   Op.Jo, Op.Jpe, Op.Jpo, Op.Js, Op.Jz]

/-- Pixel store shared by the two frame composers of
`src/gpu/render.rs`: write the RGB triple of a DAC entry at buffer
index `i` (the `if let RGB(r, g, b)` destructuring of the source). -/
def putRGB (buf : List Nat) (i : Nat) (pal : ColorSpace) : List Nat :=
  match pal with
  | ColorSpace.RGB r g b => ((buf.set i r).set (i + 1) g).set (i + 2) b

/-- `GPU::render_mode04_frame` of `src/gpu/render.rs`: 320x200 4-color
CGA composition; two interleaved banks at 0xB800:0000/0xB800:2000, 80
bytes per line, 4 pixels per byte, mapped through the `pal1_map` CGA
sub-palette `[0, 3, 5, 7]` into the DAC. -/
def GPU.render_mode04_frame (g : GPU) (memory : Nat → Nat) : List Nat :=
  (List.range g.mode.sheight).foldl (fun buf y =>
    (List.range g.mode.swidth).foldl (fun buf x =>
      let offset := 0xB8000 + (y % 2) * 0x2000 + 80 * (y >>> 1) + (x >>> 2)
      let bits := ((memory offset % 256) >>> ((3 - (x &&& 3)) * 2)) &&& 3
      let pal := g.dac.pal ([0, 3, 5, 7].getD bits 0)
      let dst := (y * g.mode.swidth + x) * 3
      putRGB buf dst pal) buf)
    (List.replicate (g.mode.swidth * g.mode.sheight * 3) 0)

/-- `GPU::render_mode13_frame` of `src/gpu/render.rs`: 320x200
256-color VGA composition; linear framebuffer at 0xA000:0000, one byte
per pixel indexing the DAC. -/
def GPU.render_mode13_frame (g : GPU) (memory : Nat → Nat) : List Nat :=
  (List.range g.mode.sheight).foldl (fun buf y =>
    (List.range g.mode.swidth).foldl (fun buf x =>
      let offset := 0xA0000 + (y * g.mode.swidth + x)
      let byte := memory offset % 256
      let pal := g.dac.pal byte
      let i := (y * g.mode.swidth + x) * 3
      putRGB buf i pal) buf)
    (List.replicate (g.mode.swidth * g.mode.sheight * 3) 0)

/-- `GPU::render_frame` of `src/gpu/render.rs`: dispatch on the current
mode number; modes 0x04 and 0x13 are composed, every other mode yields
an empty vector. The source first takes a cloned snapshot of the MMU
memory (`dump_mem`), which the pure embedding reflects by reading the
byte function and returning only the frame. -/
def GPU.render_frame (g : GPU) (mmu : MMU) : List Nat :=
  let memory := mmu.memory
  if g.mode.mode = 0x04 then g.render_mode04_frame memory
  else if g.mode.mode = 0x13 then g.render_mode13_frame memory
  else []

/-- Concrete MZ image for the relocation claim: 28-byte header
(signature "MZ", bytes_in_last_block 36, blocks_in_file 1, num_relocs
1, header_paragraphs 2, SP 0x1000, reloc_table_offset 28), one
relocation entry (offset 1, segment 0), and 4 code bytes whose word at
offset 1 is 0x1234. -/
def exeImage : List Nat :=
  [0x4D, 0x5A,
   0x24, 0x00,
   0x01, 0x00,
   0x01, 0x00,
   0x02, 0x00,
   0x00, 0x00,
   0x00, 0x00,
   0x00, 0x00,
   0x00, 0x10,
   0x00, 0x00,
   0x00, 0x00,
   0x00, 0x00,
   0x1C, 0x00,
   0x00, 0x00,
   0x01, 0x00, 0x00, 0x00,
   0xCD, 0x34, 0x12, 0x20]

/-- Program bytes of the MOV/stack end-to-end scenario:
`mov ax,0x8888; mov ds,ax; push ds; pop es`. -/
def stackScenarioCode : List Nat :=
  [0xB8, 0x88, 0x88, 0x8E, 0xD8, 0x1E, 0x07]

/-- CPU state after loading the MOV/stack scenario as a raw image at
offset 0x100 of `src/cpu.rs`'s CPU and executing 4 instructions. -/
def stackScenarioRun : OldCpu.CPU :=
  OldCpu.execute_instruction (OldCpu.execute_instruction (OldCpu.execute_instruction
    (OldCpu.execute_instruction (OldCpu.load_rom OldCpu.CPU.new stackScenarioCode 0x100))))

/-- Decoder stub that always reports an invalid opcode (used to probe
the `Op::Invalid` arm of `Machine::execute_instruction`). -/
def invalidDecode : (Nat → Nat) → Nat → Nat → Instr :=
  fun _ _ _ => { command := Op.Invalid [0xFF] InvalidKind.Op, dst := Param.None, length := 1 }

/-- Machine positioned inside the HLE interrupt segment: CS = 0xF000,
IP = 0x10 (so the high-level INT 0x10 runs first) and AX = 0x0E41
(AH = 0x0E teletype, AL = 'A'). -/
def hleMachine : Machine :=
  let c := (MachineCPU.default.set_r16 R.CS 0xF000).set_r16 R.AX 0x0E41
  { hw := Hardware.default, cpu := { c with regs := { c.regs with ip := 0x10 } } }

/-- Decoder stub that always yields `RetImm16` (RET with an immediate
operand), the command the tracer's walk loop panics on. -/
def retImmDecode : Nat → Nat → Instr :=
  fun _ _ => { command := Op.RetImm16, dst := Param.Imm16 0, length := 3 }

/-- Start address for the tracer counterexample walk. -/
def traceStartMA : MemoryAddress :=
  MemoryAddress.RealSegmentOffset 0 0x100

/-- Tiny GPU in mode 0x13 (2x1 pixels) used to evaluate the frame
composer on a concrete input. -/
def smallVgaGpu : GPU :=
  { GPU.default with mode := { mode := 0x13, swidth := 2, sheight := 1, kind := GFXMode.VGA } }

/-! ## Helper lemmas -/

/-- Bytes already written by `writeBytes` are not disturbed by writes at
higher addresses. -/
theorem writeBytes_lt (l : List Nat) :
    ∀ (mem : Nat → Nat) (a addr : Nat), addr < a → writeBytes mem a l addr = mem addr := by
  induction l with
  | nil => intro mem a addr _; rfl
  | cons b rest ih =>
      intro mem a addr h
      rw [writeBytes, ih _ _ _ (Nat.lt_succ_of_lt h)]
      simp [Nat.ne_of_lt h]

/-- Read-back of `writeBytes`: position `i` of the written range holds
byte `i` of the data (reduced modulo 256 as the store does). -/
theorem writeBytes_getD (l : List Nat) :
    ∀ (mem : Nat → Nat) (a i : Nat), i < l.length →
      writeBytes mem a l (a + i) = l.getD i 0 % 256 := by
  induction l with
  | nil => intro mem a i h; exact absurd h (by simp)
  | cons b rest ih =>
      intro mem a i h
      cases i with
      | zero =>
          simp only [Nat.add_zero]
          rw [writeBytes, writeBytes_lt rest _ _ _ (Nat.lt_succ_self a)]
          simp
      | succ j =>
          have hj : j < rest.length := by simpa using h
          have : a + (j + 1) = (a + 1) + j := by omega
          rw [writeBytes, this, ih _ _ _ hj]
          rfl

/-- The CPU record is untouched by the peripheral ticks. -/
theorem apply_periph_ticks_cpu (pitDec : Nat → Nat) (m2 : Machine) :
    (Machine.apply_periph_ticks pitDec m2).cpu = m2.cpu := by
  simp only [Machine.apply_periph_ticks]
  split_ifs <;> rfl

/-- The MMU is untouched by the peripheral ticks. -/
theorem apply_periph_ticks_mmu (pitDec : Nat → Nat) (m2 : Machine) :
    (Machine.apply_periph_ticks pitDec m2).hw.mmu = m2.hw.mmu := by
  simp only [Machine.apply_periph_ticks]
  split_ifs <;> rfl

/-- Folding a length-preserving function preserves the length. -/
theorem foldl_preserves_length {α : Type} (f : List Nat → α → List Nat)
    (h : ∀ b a, (f b a).length = b.length) :
    ∀ (l : List α) (b : List Nat), (l.foldl f b).length = b.length := by
  intro l
  induction l with
  | nil => intro b; rfl
  | cons x xs ih => intro b; rw [List.foldl_cons, ih, h]

/-- `putRGB` preserves the buffer length. -/
theorem putRGB_length (buf : List Nat) (i : Nat) (pal : ColorSpace) :
    (putRGB buf i pal).length = buf.length := by
  cases pal
  simp [putRGB]

/-! ## Claim theorems -/

/-- C1: `MMU::to_flat` does compute `(segment << 4) + offset`, but the
opcode fetch of `src/cpu.rs` uses `CPU::get_offset = CS + IP` without
the shift: at CS=0x085F, IP=0x0100 (the .COM load convention) the fetch
address is 0x095F while CS*16+IP is 0x86F0. -/
theorem flat_address_fetch_bug :
    (∀ seg off : Nat, MMU.to_flat seg off = seg * 16 + off) ∧
    OldCpu.CPU.get_offset { OldCpu.CPU.new with
      sreg16 := OldCpu.updF OldCpu.CPU.new.sreg16 OldCpu.CS 0x085F, ip := 0x0100 } = 0x095F ∧
    (0x095F : Nat) ≠ 0x085F * 16 + 0x0100 ∧
    MMU.to_flat 0x085F 0x0100 = 0x86F0 := by
  refine ⟨fun seg off => ?_, by decide, by decide, by decide⟩
  simp [MMU.to_flat, Nat.shiftLeft_eq]

/-- C2: `Machine::load_exe` never applies the relocation table. For the
concrete one-relocation image `exeImage` (relocation seg=0, off=1), the
word at flat base+1 (0x085F:0x0101) still holds the image's original
word 0x1234 after loading instead of being increased by the load
segment; the last conjunct records that the claimed patched value
differs. -/
theorem mz_relocation_not_applied :
    exeWord exeImage 6 = 1 ∧
    exeWord exeImage 28 = 1 ∧
    exeWord exeImage 30 = 0 ∧
    (Machine.load_executable Machine.default exeImage).map
      (fun m2 => MMU.read_u16 m2.hw.mmu 0x085F 0x0101) = some 0x1234 ∧
    (0x1234 : Nat) ≠ 0x1234 + 0x10 := by
  refine ⟨by decide, by decide, by decide, by decide, by decide⟩

/-- C5 (amended): the byte array `Memory::new` allocates holds exactly
0x10000 * 64 = 4,194,304 bytes, zero-filled. -/
theorem memory_allocation_size :
    Memory.new.memory.length = 4194304 ∧ ∀ b ∈ Memory.new.memory, b = 0 := by
  have h : Memory.new.memory = List.replicate (0x10000 * 64) 0 := rfl
  constructor
  · rw [h, List.length_replicate]
  · intro b hb
    rw [h] at hb
    exact List.eq_of_mem_replicate hb

/-- C5 counterexample: the allocation is not 1,048,576 bytes. -/
theorem memory_allocation_not_one_mib :
    Memory.new.memory.length ≠ 1048576 := by
  have h : Memory.new.memory = List.replicate (0x10000 * 64) 0 := rfl
  rw [h, List.length_replicate]
  norm_num

/-- C6: `Machine::hard_reset` replaces only the CPU record with its
default and leaves the hardware — in particular every byte of RAM —
unchanged. -/
theorem hard_reset_preserves_hardware (m : Machine) :
    m.hard_reset.hw = m.hw ∧
    m.hard_reset.cpu = MachineCPU.default ∧
    ∀ a, m.hard_reset.hw.mmu.memory a = m.hw.mmu.memory a :=
  ⟨rfl, rfl, fun _ => rfl⟩

/-- C9: after loading `B8 88 88 8E D8 1E 07` as a raw image at offset
0x100 of `src/cpu.rs`'s CPU and executing 4 instructions, AX=0x8888,
DS=0x8888, SP=0xFFF0 and ES=0x8888. -/
theorem stack_scenario_registers :
    stackScenarioRun.r16 OldCpu.AX = 0x8888 ∧
    stackScenarioRun.sreg16 OldCpu.DS = 0x8888 ∧
    stackScenarioRun.r16 OldCpu.SP = 0xFFF0 ∧
    stackScenarioRun.sreg16 OldCpu.ES = 0x8888 := by
  refine ⟨by decide, by decide, by decide, by decide⟩

/-- C3 counterexample: the empty buffer does not start with the MZ
signature, yet `Machine::load_executable` panics on it (indexing
`data[0]`) instead of loading it as a raw image. -/
theorem load_executable_empty_buffer_panics :
    Machine.load_executable Machine.default [] = none := rfl

/-- C4 counterexample: with CS = 0xF000 (the HLE interrupt segment) the
high-level interrupt handler runs before the decode, so even though the
decoder yields an `Invalid` record and `fatal_error` is set without
invoking the executor, memory is NOT left unchanged by the step: the
teletype handler advances the BIOS cursor byte at flat 0x450 from 0
to 1. -/
theorem invalid_op_hle_segment_state_change :
    (invalidDecode hleMachine.hw.mmu.memory (hleMachine.cpu.get_r16 R.CS)
      hleMachine.cpu.regs.ip).command = Op.Invalid [0xFF] InvalidKind.Op ∧
    hleMachine.cpu.get_r16 R.CS = 0xF000 ∧
    (Machine.execute_instruction invalidDecode handle_interrupt (fun m _ => m) id
      hleMachine).cpu.fatal_error = true ∧
    (Machine.execute_instruction invalidDecode handle_interrupt (fun m _ => m) id
      hleMachine).hw.mmu.memory 0x450 = 1 ∧
    hleMachine.hw.mmu.memory 0x450 = 0 := by
  refine ⟨rfl, by decide, by decide, by decide, by decide⟩

/-- C8 counterexample: on a `RetImm16` (RET with immediate) at a fresh
address, the tracer's walk does not end the path normally — it hits the
source's `panic!` (whole-program abort). -/
theorem tracer_ret_imm16_panics :
    walkStep retImmDecode 0x100 0x10 Tracer.new traceStartMA =
      WalkOutcome.panicked { seen_destinations := [], visited_addresses := [traceStartMA] } ∧
    (walkStep retImmDecode 0x100 0x10 Tracer.new traceStartMA).isStop = false := by
  refine ⟨by decide, by decide⟩

/-- Register, ROM-extent and memory effects of `Machine::load_com`
(shared by the loader claims). -/
theorem load_com_spec (m : Machine) (data : List Nat)
    (hbytes : ∀ b ∈ data, b < 256) :
    (m.load_com data).cpu.get_r16 R.CS = 0x085F ∧
    (m.load_com data).cpu.get_r16 R.DS = 0x085F ∧
    (m.load_com data).cpu.get_r16 R.ES = 0x085F ∧
    (m.load_com data).cpu.get_r16 R.SS = 0x085F ∧
    (m.load_com data).cpu.get_r16 R.SP = 0xFFFE ∧
    (m.load_com data).cpu.get_r16 R.BP = 0x091C ∧
    (m.load_com data).cpu.get_r16 R.CX = 0x00FF ∧
    (m.load_com data).cpu.get_r16 R.DX = 0x085F ∧
    (m.load_com data).cpu.get_r16 R.SI = 0x0100 ∧
    (m.load_com data).cpu.get_r16 R.DI = 0xFFFE ∧
    (m.load_com data).cpu.regs.ip = 0x0100 ∧
    (m.load_com data).cpu.rom_base = 0x86F0 ∧
    (m.load_com data).cpu.rom_length = data.length ∧
    ∀ i < data.length, (m.load_com data).hw.mmu.memory (0x86F0 + i) = data.getD i 0 := by
  refine ⟨?_, ?_, ?_, ?_, ?_, ?_, ?_, ?_, ?_, ?_, ?_, ?_, ?_, ?_⟩
  case _ => simp [Machine.load_com, MachineCPU.set_r16, MachineCPU.get_r16]
  case _ => simp [Machine.load_com, MachineCPU.set_r16, MachineCPU.get_r16]
  case _ => simp [Machine.load_com, MachineCPU.set_r16, MachineCPU.get_r16]
  case _ => simp [Machine.load_com, MachineCPU.set_r16, MachineCPU.get_r16]
  case _ => simp [Machine.load_com, MachineCPU.set_r16, MachineCPU.get_r16]
  case _ => simp [Machine.load_com, MachineCPU.set_r16, MachineCPU.get_r16]
  case _ => simp [Machine.load_com, MachineCPU.set_r16, MachineCPU.get_r16]
  case _ => simp [Machine.load_com, MachineCPU.set_r16, MachineCPU.get_r16]
  case _ => simp [Machine.load_com, MachineCPU.set_r16, MachineCPU.get_r16]
  case _ => simp [Machine.load_com, MachineCPU.set_r16, MachineCPU.get_r16]
  case _ => simp [Machine.load_com, MachineCPU.set_r16, MachineCPU.get_r16]
  case _ =>
    simp [Machine.load_com, MachineCPU.set_r16, MachineCPU.get_r16, MachineCPU.get_address,
      MMU.to_flat]
  case _ => simp [Machine.load_com, MachineCPU.set_r16, MachineCPU.get_r16]
  case _ =>
    intro i hi
    have h1 : (m.load_com data).hw.mmu.memory (0x86F0 + i) =
        writeBytes m.hw.mmu.memory 0x86F0 data (0x86F0 + i) := by
      simp [Machine.load_com, MachineCPU.set_r16, MachineCPU.get_r16, MMU.write, MMU.to_flat]
    rw [h1, writeBytes_getD data _ _ _ hi]
    have hmem : data.getD i 0 ∈ data := by
      rw [List.getD_eq_getElem?_getD, List.getElem?_eq_getElem hi]
      apply List.getElem_mem
    exact Nat.mod_eq_of_lt (hbytes _ hmem)

/-- C3 (amended): loading a buffer that does not start with the MZ
signature — provided it is at least 2 bytes long, or is a single byte
other than 'M' (the loader panics reading the signature on the empty
buffer and on the 1-byte buffer 'M') — places its bytes at
0x085F:0x0100, seeds the registers with the documented values, and
records the flat ROM base 0x86F0 and the buffer length. -/
theorem load_com_places_image (m : Machine) (data : List Nat)
    (hshape : 2 ≤ data.length ∧ ¬(data.getD 0 0 = 0x4D ∧ data.getD 1 0 = 0x5A) ∨
      data.length = 1 ∧ data.getD 0 0 ≠ 0x4D)
    (hbytes : ∀ b ∈ data, b < 256) :
    ∃ m2, Machine.load_executable m data = some m2 ∧
      m2.cpu.get_r16 R.CS = 0x085F ∧
      m2.cpu.get_r16 R.DS = 0x085F ∧
      m2.cpu.get_r16 R.ES = 0x085F ∧
      m2.cpu.get_r16 R.SS = 0x085F ∧
      m2.cpu.get_r16 R.SP = 0xFFFE ∧
      m2.cpu.get_r16 R.BP = 0x091C ∧
      m2.cpu.get_r16 R.CX = 0x00FF ∧
      m2.cpu.get_r16 R.DX = 0x085F ∧
      m2.cpu.get_r16 R.SI = 0x0100 ∧
      m2.cpu.get_r16 R.DI = 0xFFFE ∧
      m2.cpu.regs.ip = 0x0100 ∧
      m2.cpu.rom_base = 0x86F0 ∧
      m2.cpu.rom_length = data.length ∧
      ∀ i < data.length, m2.hw.mmu.memory (0x86F0 + i) = data.getD i 0 := by
  have hload : Machine.load_executable m data = some (m.load_com data) := by
    match data, hshape with
    | [], Or.inl ⟨h2, _⟩ => exact absurd h2 (by simp)
    | [], Or.inr ⟨h1, _⟩ => exact absurd h1 (by simp)
    | [b0], Or.inl ⟨h2, _⟩ => exact absurd h2 (by simp)
    | [b0], Or.inr ⟨_, hb0⟩ =>
        simp only [Machine.load_executable]
        rw [if_neg (by simpa using hb0)]
    | b0 :: b1 :: rest, Or.inl ⟨_, hnot⟩ =>
        simp only [Machine.load_executable]
        rw [if_neg (by simpa using hnot)]
    | b0 :: b1 :: rest, Or.inr ⟨h1, _⟩ => exact absurd h1 (by simp)
  exact ⟨m.load_com data, hload, load_com_spec m data hbytes⟩

/-- C3 witness: the 2-byte non-MZ buffer `B8 42` loads as a raw image
with the documented register seeds, ROM extent and placed bytes. -/
theorem load_com_places_image_witness :
    ∃ m2, Machine.load_executable Machine.default [0xB8, 0x42] = some m2 ∧
      m2.cpu.get_r16 R.CS = 0x085F ∧
      m2.cpu.get_r16 R.DS = 0x085F ∧
      m2.cpu.get_r16 R.ES = 0x085F ∧
      m2.cpu.get_r16 R.SS = 0x085F ∧
      m2.cpu.get_r16 R.SP = 0xFFFE ∧
      m2.cpu.get_r16 R.BP = 0x091C ∧
      m2.cpu.get_r16 R.CX = 0x00FF ∧
      m2.cpu.get_r16 R.DX = 0x085F ∧
      m2.cpu.get_r16 R.SI = 0x0100 ∧
      m2.cpu.get_r16 R.DI = 0xFFFE ∧
      m2.cpu.regs.ip = 0x0100 ∧
      m2.cpu.rom_base = 0x86F0 ∧
      m2.cpu.rom_length = 2 ∧
      ∀ i < 2, m2.hw.mmu.memory (0x86F0 + i) = [0xB8, 0x42].getD i 0 :=
  load_com_places_image Machine.default [0xB8, 0x42] (Or.inl (by decide)) (by decide)

/-- C4 (amended): provided CS ≠ 0xF000 (outside the HLE interrupt
segment), whenever the decoder yields an `Invalid` record at the
current (CS, IP), `Machine::execute_instruction` sets `fatal_error`,
leaves the registers and memory unchanged, and never invokes the
executor (the step's result is the same for any executor). -/
theorem invalid_op_sets_fatal_error
    (decode : (Nat → Nat) → Nat → Nat → Instr)
    (handleInt : Machine → Nat → Machine)
    (ex ex2 : Machine → Instr → Machine) (pitDec : Nat → Nat) (m : Machine)
    (bytes : List Nat) (kind : InvalidKind)
    (hcs : m.cpu.get_r16 R.CS ≠ 0xF000)
    (hdec : (decode m.hw.mmu.memory (m.cpu.get_r16 R.CS) m.cpu.regs.ip).command =
      Op.Invalid bytes kind) :
    (Machine.execute_instruction decode handleInt ex pitDec m).cpu.fatal_error = true ∧
    (Machine.execute_instruction decode handleInt ex pitDec m).cpu.regs = m.cpu.regs ∧
    (Machine.execute_instruction decode handleInt ex pitDec m).hw.mmu = m.hw.mmu ∧
    Machine.execute_instruction decode handleInt ex pitDec m =
      Machine.execute_instruction decode handleInt ex2 pitDec m := by
  have h1 : (if m.cpu.get_r16 R.CS = 0xF000 then handleInt m (m.cpu.regs.ip % 256) else m) = m :=
    if_neg hcs
  refine ⟨?_, ?_, ?_, ?_⟩ <;>
    simp only [Machine.execute_instruction, h1, hdec, apply_periph_ticks_cpu,
      apply_periph_ticks_mmu]

/-- C4 witness: on the default machine (CS = 0), a decoder yielding an
`Invalid` record makes the step set `fatal_error`, keep registers and
MMU, and ignore the executor. -/
theorem invalid_op_sets_fatal_error_witness :
    (Machine.execute_instruction invalidDecode handle_interrupt (fun m _ => m) id
      Machine.default).cpu.fatal_error = true ∧
    (Machine.execute_instruction invalidDecode handle_interrupt (fun m _ => m) id
      Machine.default).cpu.regs = Machine.default.cpu.regs ∧
    (Machine.execute_instruction invalidDecode handle_interrupt (fun m _ => m) id
      Machine.default).hw.mmu = Machine.default.hw.mmu ∧
    Machine.execute_instruction invalidDecode handle_interrupt (fun m _ => m) id
      Machine.default =
      Machine.execute_instruction invalidDecode handle_interrupt (fun _ _ => Machine.default) id
      Machine.default :=
  invalid_op_sets_fatal_error invalidDecode handle_interrupt (fun m _ => m)
    (fun _ _ => Machine.default) id Machine.default [0xFF] InvalidKind.Op
    (by decide) rfl

/-- C7: executing PUSH of a 16-bit value followed by POP into a general
register other than SP (on a state whose SS:SP stack slot does not wrap)
returns SP to its original value, leaves the word at the written stack
slot `SS*16 + SP-2` holding the value, and pops that same value. -/
theorem push_pop_roundtrip (s : OldCpu.CPU) (x r : Nat)
    (hx : x < 65536) (_hr8 : r < 8) (hr : r ≠ OldCpu.SP)
    (hsp2 : 2 ≤ s.r16 OldCpu.SP) (hsp : s.r16 OldCpu.SP < 65536) :
    (OldCpu.execute (OldCpu.execute s
        { command := OldCpu.Op.Push16, src := OldCpu.Parameter.Empty,
          dst := OldCpu.Parameter.Imm16 x })
      { command := OldCpu.Op.Pop16, src := OldCpu.Parameter.Empty,
        dst := OldCpu.Parameter.Reg16 r }).r16 OldCpu.SP = s.r16 OldCpu.SP ∧
    OldCpu.peek_u16_at (OldCpu.execute (OldCpu.execute s
        { command := OldCpu.Op.Push16, src := OldCpu.Parameter.Empty,
          dst := OldCpu.Parameter.Imm16 x })
      { command := OldCpu.Op.Pop16, src := OldCpu.Parameter.Empty,
        dst := OldCpu.Parameter.Reg16 r })
      (s.sreg16 OldCpu.SS * 16 + (s.r16 OldCpu.SP - 2)) = x ∧
    (OldCpu.execute (OldCpu.execute s
        { command := OldCpu.Op.Push16, src := OldCpu.Parameter.Empty,
          dst := OldCpu.Parameter.Imm16 x })
      { command := OldCpu.Op.Pop16, src := OldCpu.Parameter.Empty,
        dst := OldCpu.Parameter.Reg16 r }).r16 r = x := by
  simp only [OldCpu.SP] at hr hsp2 hsp ⊢
  have e1 : (s.r16 4 + 65536 - 2) % 65536 = s.r16 4 - 2 := by omega
  have e1x : (s.r16 4 + 65534) % 65536 = s.r16 4 - 2 := by omega
  have ex1 : x % 65536 = x := Nat.mod_eq_of_lt hx
  have hne4 : ¬ (4 : Nat) = r := fun h => hr h.symm
  refine ⟨?_, ?_, ?_⟩ <;>
    simp [OldCpu.execute, OldCpu.get_parameter_value, OldCpu.push16, OldCpu.write_u16,
      OldCpu.write_u8, OldCpu.write_u16_param, OldCpu.peek_u16_at, OldCpu.peek_u8_at,
      OldCpu.updF, OldCpu.SP, OldCpu.SS, ex1, e1, e1x, hne4] <;>
    omega

/-- C7 witness: push 0x1234 then pop into AX on the freshly created CPU:
SP round-trips (0xFFF0), the slot at SS*16+SP-2 holds 0x1234, and AX
receives 0x1234. -/
theorem push_pop_roundtrip_witness :
    (OldCpu.execute (OldCpu.execute OldCpu.CPU.new
        { command := OldCpu.Op.Push16, src := OldCpu.Parameter.Empty,
          dst := OldCpu.Parameter.Imm16 0x1234 })
      { command := OldCpu.Op.Pop16, src := OldCpu.Parameter.Empty,
        dst := OldCpu.Parameter.Reg16 0 }).r16 OldCpu.SP = OldCpu.CPU.new.r16 OldCpu.SP ∧
    OldCpu.peek_u16_at (OldCpu.execute (OldCpu.execute OldCpu.CPU.new
        { command := OldCpu.Op.Push16, src := OldCpu.Parameter.Empty,
          dst := OldCpu.Parameter.Imm16 0x1234 })
      { command := OldCpu.Op.Pop16, src := OldCpu.Parameter.Empty,
        dst := OldCpu.Parameter.Reg16 0 })
      (OldCpu.CPU.new.sreg16 OldCpu.SS * 16 + (OldCpu.CPU.new.r16 OldCpu.SP - 2)) = 0x1234 ∧
    (OldCpu.execute (OldCpu.execute OldCpu.CPU.new
        { command := OldCpu.Op.Push16, src := OldCpu.Parameter.Empty,
          dst := OldCpu.Parameter.Imm16 0x1234 })
      { command := OldCpu.Op.Pop16, src := OldCpu.Parameter.Empty,
        dst := OldCpu.Parameter.Reg16 0 }).r16 0 = 0x1234 :=
  push_pop_roundtrip OldCpu.CPU.new 0x1234 0 (by decide) (by decide) (by decide)
    (by decide) (by decide)

set_option maxHeartbeats 4000000 in
/-- Exhaustive classification of the tracer's dispatch: `traceClass`
sends exactly `RetImm16` to the panic arm, exactly RET near/far to the
path-ending RET arm, exactly the three JMP forms to the unconditional
arm, and exactly the CALL/LOOP/Jcc list to the conditional arm. -/
theorem traceClass_spec (o : Op) :
    (traceClass o = TraceClass.retImm ↔ o = Op.RetImm16) ∧
    (traceClass o = TraceClass.ret ↔ (o = Op.Retn ∨ o = Op.Retf)) ∧
    (traceClass o = TraceClass.jmpUncond ↔
      (o = Op.JmpNear ∨ o = Op.JmpFar ∨ o = Op.JmpShort)) ∧
    (traceClass o = TraceClass.condBranch ↔ o ∈ condBranchOps) := by
  cases o <;> simp [traceClass, condBranchOps]

/-- Learning a destination does not change the visited set. -/
theorem learn_destination_visited (t : Tracer) (s i : Nat) (src : MemoryAddress) :
    (t.learn_destination s i src).visited_addresses = t.visited_addresses := rfl

/-- Learning an immediate branch target does not change the visited
set. -/
theorem learnImmTarget_visited (t : Tracer) (ii : Instr) (ma : MemoryAddress) :
    (learnImmTarget t ii ma).visited_addresses = t.visited_addresses := by
  cases h : ii.dst <;> simp [learnImmTarget, h, learn_destination_visited]

/-- C8 (amended): one iteration of the tracer's straight-line walk at a
not-yet-visited address records that address in the visited set and
then: panics exactly on `RetImm16` (RET with immediate — the source's
`panic!`, not a normal path end); ends the path normally exactly on an
unconditional JMP form, on RET near/far, or (for any other command but
`RetImm16`) when the advanced address leaves the ROM extent; an
unconditional JMP with an `Imm16` target first records that target as a
new destination whose source is the JMP's own address; a conditional
CALL/LOOP/Jcc with an `Imm16` target records the target and the walk
continues at the next instruction. -/
theorem tracer_walk_characterization
    (decode : Nat → Nat → Instr) (rb rl : Nat) (t : Tracer) (ma : MemoryAddress)
    (hv : t.has_visited_address ma = false) :
    ((walkStep decode rb rl t ma).tracer.visited_addresses = t.visited_addresses ++ [ma]) ∧
    ((walkStep decode rb rl t ma).isPanicked = true ↔
      (decode ma.segment ma.offset).command = Op.RetImm16) ∧
    ((walkStep decode rb rl t ma).isStop = true ↔
      ((decode ma.segment ma.offset).command = Op.JmpNear ∨
       (decode ma.segment ma.offset).command = Op.JmpFar ∨
       (decode ma.segment ma.offset).command = Op.JmpShort) ∨
      ((decode ma.segment ma.offset).command = Op.Retn ∨
       (decode ma.segment ma.offset).command = Op.Retf) ∨
      ((decode ma.segment ma.offset).command ≠ Op.RetImm16 ∧
       ((ma.inc_n (decode ma.segment ma.offset).length).value : Int) - (rb : Int) ≥ (rl : Int))) ∧
    (∀ imm, ((decode ma.segment ma.offset).command = Op.JmpNear ∨
        (decode ma.segment ma.offset).command = Op.JmpFar ∨
        (decode ma.segment ma.offset).command = Op.JmpShort) →
      (decode ma.segment ma.offset).dst = Param.Imm16 imm →
      walkStep decode rb rl t ma = WalkOutcome.stop
        (Tracer.learn_destination { t with visited_addresses := t.visited_addresses ++ [ma] }
          ma.segment imm ma)) ∧
    (∀ imm, (decode ma.segment ma.offset).command ∈ condBranchOps →
      (decode ma.segment ma.offset).dst = Param.Imm16 imm →
      ¬ (((ma.inc_n (decode ma.segment ma.offset).length).value : Int) - (rb : Int) ≥ (rl : Int)) →
      walkStep decode rb rl t ma = WalkOutcome.next
        (Tracer.learn_destination { t with visited_addresses := t.visited_addresses ++ [ma] }
          ma.segment imm ma)
        (ma.inc_n (decode ma.segment ma.offset).length)) := by
  obtain ⟨sR, sRet, sJ, sC⟩ := traceClass_spec (decode ma.segment ma.offset).command
  have hnotR : ∀ c, traceClass (decode ma.segment ma.offset).command = c →
      c ≠ TraceClass.retImm → (decode ma.segment ma.offset).command ≠ Op.RetImm16 := by
    intro c h hne he
    exact hne (h ▸ sR.mpr he)
  cases hc : traceClass (decode ma.segment ma.offset).command
  case retImm =>
    refine ⟨?_, ?_, ?_, ?_, ?_⟩
    · simp only [walkStep, hv, Bool.false_eq_true, if_false, hc]; rfl
    · simp only [walkStep, hv, Bool.false_eq_true, if_false, hc]
      exact iff_of_true rfl (sR.mp hc)
    · simp only [walkStep, hv, Bool.false_eq_true, if_false, hc]
      refine iff_of_false (by simp [WalkOutcome.isStop]) ?_
      rintro (h | h | ⟨hne, _⟩)
      · have := sJ.mpr h; rw [hc] at this; exact absurd this (by decide)
      · have := sRet.mpr h; rw [hc] at this; exact absurd this (by decide)
      · exact hne (sR.mp hc)
    · intro imm hcmd _
      have := sJ.mpr hcmd; rw [hc] at this; exact absurd this (by decide)
    · intro imm hcmd _ _
      have := sC.mpr hcmd; rw [hc] at this; exact absurd this (by decide)
  case ret =>
    refine ⟨?_, ?_, ?_, ?_, ?_⟩
    · simp only [walkStep, hv, Bool.false_eq_true, if_false, hc]; rfl
    · simp only [walkStep, hv, Bool.false_eq_true, if_false, hc]
      refine iff_of_false (by simp [WalkOutcome.isPanicked]) ?_
      intro h
      have := sR.mpr h; rw [hc] at this; exact absurd this (by decide)
    · simp only [walkStep, hv, Bool.false_eq_true, if_false, hc]
      exact iff_of_true rfl (Or.inr (Or.inl (sRet.mp hc)))
    · intro imm hcmd _
      have := sJ.mpr hcmd; rw [hc] at this; exact absurd this (by decide)
    · intro imm hcmd _ _
      have := sC.mpr hcmd; rw [hc] at this; exact absurd this (by decide)
  case jmpUncond =>
    refine ⟨?_, ?_, ?_, ?_, ?_⟩
    · simp only [walkStep, hv, Bool.false_eq_true, if_false, hc]
      simp [WalkOutcome.tracer, learnImmTarget_visited]
    · simp only [walkStep, hv, Bool.false_eq_true, if_false, hc]
      refine iff_of_false (by simp [WalkOutcome.isPanicked]) ?_
      intro h
      have := sR.mpr h; rw [hc] at this; exact absurd this (by decide)
    · simp only [walkStep, hv, Bool.false_eq_true, if_false, hc]
      exact iff_of_true rfl (Or.inl (sJ.mp hc))
    · intro imm hcmd hdst
      simp only [walkStep, hv, Bool.false_eq_true, if_false, hc, learnImmTarget, hdst]
    · intro imm hcmd _ _
      have := sC.mpr hcmd; rw [hc] at this; exact absurd this (by decide)
  case condBranch =>
    have hne16 : (decode ma.segment ma.offset).command ≠ Op.RetImm16 :=
      hnotR _ hc (by decide)
    refine ⟨?_, ?_, ?_, ?_, ?_⟩
    · simp only [walkStep, hv, Bool.false_eq_true, if_false, hc]
      by_cases hx : ((ma.inc_n (decode ma.segment ma.offset).length).value : Int)
          - (rb : Int) ≥ (rl : Int)
      · simp [hx, WalkOutcome.tracer, learnImmTarget_visited]
      · simp [hx, WalkOutcome.tracer, learnImmTarget_visited]
    · simp only [walkStep, hv, Bool.false_eq_true, if_false, hc]
      refine iff_of_false ?_ ?_
      · by_cases hx : ((ma.inc_n (decode ma.segment ma.offset).length).value : Int)
            - (rb : Int) ≥ (rl : Int)
        · simp [hx, WalkOutcome.isPanicked]
        · simp [hx, WalkOutcome.isPanicked]
      · intro h
        have := sR.mpr h; rw [hc] at this; exact absurd this (by decide)
    · simp only [walkStep, hv, Bool.false_eq_true, if_false, hc]
      by_cases hx : ((ma.inc_n (decode ma.segment ma.offset).length).value : Int)
          - (rb : Int) ≥ (rl : Int)
      · refine iff_of_true (by simp [hx, WalkOutcome.isStop]) (Or.inr (Or.inr ⟨hne16, hx⟩))
      · refine iff_of_false (by simp [hx, WalkOutcome.isStop]) ?_
        rintro (h | h | ⟨_, hx'⟩)
        · have := sJ.mpr h; rw [hc] at this; exact absurd this (by decide)
        · have := sRet.mpr h; rw [hc] at this; exact absurd this (by decide)
        · exact hx hx'
    · intro imm hcmd _
      have := sJ.mpr hcmd; rw [hc] at this; exact absurd this (by decide)
    · intro imm _ hdst hnx
      simp only [walkStep, hv, Bool.false_eq_true, if_false, hc, learnImmTarget, hdst]
      rw [if_neg hnx]
  case invalidOp =>
    have hne16 : (decode ma.segment ma.offset).command ≠ Op.RetImm16 :=
      hnotR _ hc (by decide)
    refine ⟨?_, ?_, ?_, ?_, ?_⟩
    · simp only [walkStep, hv, Bool.false_eq_true, if_false, hc]
      by_cases hx : ((ma.inc_n (decode ma.segment ma.offset).length).value : Int)
          - (rb : Int) ≥ (rl : Int)
      · simp [hx, WalkOutcome.tracer]
      · simp [hx, WalkOutcome.tracer]
    · simp only [walkStep, hv, Bool.false_eq_true, if_false, hc]
      refine iff_of_false ?_ ?_
      · by_cases hx : ((ma.inc_n (decode ma.segment ma.offset).length).value : Int)
            - (rb : Int) ≥ (rl : Int)
        · simp [hx, WalkOutcome.isPanicked]
        · simp [hx, WalkOutcome.isPanicked]
      · intro h
        have := sR.mpr h; rw [hc] at this; exact absurd this (by decide)
    · simp only [walkStep, hv, Bool.false_eq_true, if_false, hc]
      by_cases hx : ((ma.inc_n (decode ma.segment ma.offset).length).value : Int)
          - (rb : Int) ≥ (rl : Int)
      · refine iff_of_true (by simp [hx, WalkOutcome.isStop]) (Or.inr (Or.inr ⟨hne16, hx⟩))
      · refine iff_of_false (by simp [hx, WalkOutcome.isStop]) ?_
        rintro (h | h | ⟨_, hx'⟩)
        · have := sJ.mpr h; rw [hc] at this; exact absurd this (by decide)
        · have := sRet.mpr h; rw [hc] at this; exact absurd this (by decide)
        · exact hx hx'
    · intro imm hcmd _
      have := sJ.mpr hcmd; rw [hc] at this; exact absurd this (by decide)
    · intro imm hcmd _ _
      have := sC.mpr hcmd; rw [hc] at this; exact absurd this (by decide)
  case other =>
    have hne16 : (decode ma.segment ma.offset).command ≠ Op.RetImm16 :=
      hnotR _ hc (by decide)
    refine ⟨?_, ?_, ?_, ?_, ?_⟩
    · simp only [walkStep, hv, Bool.false_eq_true, if_false, hc]
      by_cases hx : ((ma.inc_n (decode ma.segment ma.offset).length).value : Int)
          - (rb : Int) ≥ (rl : Int)
      · simp [hx, WalkOutcome.tracer]
      · simp [hx, WalkOutcome.tracer]
    · simp only [walkStep, hv, Bool.false_eq_true, if_false, hc]
      refine iff_of_false ?_ ?_
      · by_cases hx : ((ma.inc_n (decode ma.segment ma.offset).length).value : Int)
            - (rb : Int) ≥ (rl : Int)
        · simp [hx, WalkOutcome.isPanicked]
        · simp [hx, WalkOutcome.isPanicked]
      · intro h
        have := sR.mpr h; rw [hc] at this; exact absurd this (by decide)
    · simp only [walkStep, hv, Bool.false_eq_true, if_false, hc]
      by_cases hx : ((ma.inc_n (decode ma.segment ma.offset).length).value : Int)
          - (rb : Int) ≥ (rl : Int)
      · refine iff_of_true (by simp [hx, WalkOutcome.isStop]) (Or.inr (Or.inr ⟨hne16, hx⟩))
      · refine iff_of_false (by simp [hx, WalkOutcome.isStop]) ?_
        rintro (h | h | ⟨_, hx'⟩)
        · have := sJ.mpr h; rw [hc] at this; exact absurd this (by decide)
        · have := sRet.mpr h; rw [hc] at this; exact absurd this (by decide)
        · exact hx hx'
    · intro imm hcmd _
      have := sJ.mpr hcmd; rw [hc] at this; exact absurd this (by decide)
    · intro imm hcmd _ _
      have := sC.mpr hcmd; rw [hc] at this; exact absurd this (by decide)

/-- C8 witness: at a fresh address with a `RetImm16` decode, the
characterization applies: the outcome is the panic, per the iff. -/
theorem tracer_walk_characterization_witness :
    Tracer.new.has_visited_address traceStartMA = false ∧
    ((walkStep retImmDecode 0x100 0x10 Tracer.new traceStartMA).isPanicked = true ↔
      (retImmDecode traceStartMA.segment traceStartMA.offset).command = Op.RetImm16) :=
  ⟨by decide,
    (tracer_walk_characterization retImmDecode 0x100 0x10 Tracer.new traceStartMA
      (by decide)).2.1⟩

/-- The mode-04 frame composer always fills a buffer of exactly
swidth*sheight*3 bytes. -/
theorem render_mode04_length (g : GPU) (mem : Nat → Nat) :
    (g.render_mode04_frame mem).length = g.mode.swidth * g.mode.sheight * 3 := by
  unfold GPU.render_mode04_frame
  refine (foldl_preserves_length _ ?_ _ _).trans (List.length_replicate _ _)
  intro b y
  exact foldl_preserves_length _ (fun b2 x => putRGB_length _ _ _) _ b

/-- The mode-13 frame composer always fills a buffer of exactly
swidth*sheight*3 bytes. -/
theorem render_mode13_length (g : GPU) (mem : Nat → Nat) :
    (g.render_mode13_frame mem).length = g.mode.swidth * g.mode.sheight * 3 := by
  unfold GPU.render_mode13_frame
  refine (foldl_preserves_length _ ?_ _ _).trans (List.length_replicate _ _)
  intro b y
  exact foldl_preserves_length _ (fun b2 x => putRGB_length _ _ _) _ b

/-- C10: `GPU::render_frame` is a pure query (the embedding takes the
GPU and MMU and returns only the frame, matching the `&self`/`&MMU`
borrow and the cloned snapshot of the source): in modes 0x04 and 0x13
it returns exactly swidth*sheight*3 RGB bytes, and in every other mode
it returns the empty vector. -/
theorem render_frame_shape (g : GPU) (mmu : MMU) :
    ((g.mode.mode = 0x04 ∨ g.mode.mode = 0x13) →
      (g.render_frame mmu).length = g.mode.swidth * g.mode.sheight * 3) ∧
    (g.mode.mode ≠ 0x04 → g.mode.mode ≠ 0x13 → g.render_frame mmu = []) := by
  constructor
  · rintro (h | h) <;>
      simp [GPU.render_frame, h, render_mode04_length, render_mode13_length]
  · intro h4 h13
    simp [GPU.render_frame, h4, h13]

/-- C10 witness: the 2x1 mode-0x13 GPU renders 6 RGB bytes from the
fresh MMU. -/
theorem render_frame_shape_witness :
    (GPU.render_frame smallVgaGpu MMU.new).length =
      smallVgaGpu.mode.swidth * smallVgaGpu.mode.sheight * 3 :=
  (render_frame_shape smallVgaGpu MMU.new).1 (Or.inr rfl)
